import Mathlib

/-!
Verification of the allscreenshots-sdk-go client library: a shallow
embedding of its request executor (`requestRaw`), retry/backoff logic,
error taxonomy, and request validation, together with theorems about
the behaviour claimed in the design document.

Go integers are modelled as `Int`; durations are nanosecond counts.
The float64 backoff computation is modelled exactly over `ℚ`, with the
random factor `rand.Float64()` made an explicit parameter.
-/

namespace Allscreenshots

/-- The JSON error envelope decoded (best-effort) from a non-2xx body:
`{"error": string, "code": string, "message": string, "details": object}`.
The `details` map is modelled as an association list; `none` is Go `nil`. -/
structure ErrEnvelope where
  error : String
  code : String
  message : String
  details : Option (List (String × String))
  deriving Repr, DecidableEq

/-- `APIError` from errors.go: status code, machine code, message, details. -/
structure APIError where
  StatusCode : Int
  Code : String
  Message : String
  Details : Option (List (String × String))
  deriving Repr, DecidableEq

/-- A transport-level Go error as observed by `isRetryableError`:
its `os.IsTimeout` classification and its `Error()` string. -/
structure TransportErr where
  isTimeoutErr : Bool
  msg : String
  deriving Repr, DecidableEq

/-- The errors a client call can surface. The first five constructors are
the typed taxonomy of errors.go (`ValidationError`, `APIError`,
`NetworkError`, `TimeoutError`, `RetryError`); `goErr` stands for a plain
untyped Go `error` value returned as-is by the executor (`ctx.Err()` on
cancellation, a JSON-decode error from the 2xx response handler). -/
inductive SDKError where
  | validationErr (field message : String)
  | apiErr (e : APIError)
  | networkErr (message : String) (cause : TransportErr)
  | timeoutErr (message : String) (causeMsg : String)
  | retryErr (attempts : Int) (lastErr : Option SDKError)
  | goErr (message : String)

/-- `http.StatusText` restricted to the codes this development mentions;
unknown codes yield the empty string, as in Go for unassigned codes. -/
def statusText (status : Int) : String :=
  if status = 400 then "Bad Request"
  else if status = 401 then "Unauthorized"
  else if status = 403 then "Forbidden"
  else if status = 404 then "Not Found"
  else if status = 429 then "Too Many Requests"
  else if status = 500 then "Internal Server Error"
  else if status = 502 then "Bad Gateway"
  else if status = 503 then "Service Unavailable"
  else if status = 504 then "Gateway Timeout"
  else ""

/-- `Client` from client.go (the `http.Client` transport handle is opaque
and omitted; it does not influence the control flow modelled here). -/
structure Client where
  baseURL : String
  apiKey : String
  maxRetries : Int
  retryWaitMin : Int
  retryWaitMax : Int
  userAgent : String
  deriving Repr, DecidableEq

/-- `DefaultMaxRetries` from client.go. -/
def DefaultMaxRetries : Int := 3

/-- `WithAPIKey`: sets the API key for authentication. -/
def WithAPIKey (apiKey : String) (c : Client) : Client :=
  { c with apiKey := apiKey }

/-- `WithMaxRetries`: sets the maximum number of retry attempts. -/
def WithMaxRetries (maxRetries : Int) (c : Client) : Client :=
  { c with maxRetries := maxRetries }

/-- What one HTTP exchange of the executor observes, sufficient to drive
`requestRaw`: the status code, the best-effort decode of the error
envelope from the body, and the outcome of the success handler
(`none` = handler succeeded, `some m` = handler returned error `m`). -/
structure HTTPResponse where
  statusCode : Int
  errBody : Option ErrEnvelope
  handlerErr : Option String
  deriving Repr, DecidableEq

/-- The outcome of one attempt: either `httpClient.Do` fails at the
transport level, or a response comes back. -/
inductive AttemptOutcome where
  | transportFailure (t : TransportErr)
  | response (r : HTTPResponse)
  deriving Repr, DecidableEq

/-- The environment of one `requestRaw` call: the outcome each attempt
index would observe, and whether the context is cancelled during the
backoff wait that precedes a given attempt. -/
structure Env where
  outcome : Nat → AttemptOutcome
  cancelledDuringWait : Nat → Bool

/-- `isRetryableStatus` from client.go. -/
def isRetryableStatus (status : Int) : Bool :=
  status == 429 || status == 502 || status == 503 || status == 504

/-- `strings.Contains` as a decidable check on character lists. -/
def containsSub (pattern s : String) : Bool :=
  decide (pattern.toList <:+: s.toList)

/-- `isRetryableError` from client.go: `os.IsTimeout`, or the error string
contains one of the transient-connection markers. -/
def isRetryableError (t : TransportErr) : Bool :=
  t.isTimeoutErr
    || containsSub "connection refused" t.msg
    || containsSub "connection reset" t.msg
    || containsSub "no such host" t.msg
    || containsSub "timeout" t.msg

/-- `parseErrorResponse` from client.go: start from the status text, then
overlay the decoded envelope when the body parses — `message` wins over
`error`, and `code`/`details` are copied from the parsed body. -/
def parseErrorResponse (status : Int) (body : Option ErrEnvelope) : APIError :=
  match body with
  | none =>
    { StatusCode := status, Code := "", Message := statusText status, Details := none }
  | some e =>
    { StatusCode := status
      Code := e.code
      Message :=
        if e.message ≠ "" then e.message
        else if e.error ≠ "" then e.error
        else statusText status
      Details := e.details }

/-- The retry loop of `requestRaw` (client.go lines 167-225), with the
remaining iteration count as fuel: iteration `attempt` runs exactly when
`attempt ≤ maxRetries`, so the fuel starts at `(maxRetries + 1).toNat`.
Returns the number of HTTP requests actually issued together with the
result. A cancellation during the backoff wait returns `ctx.Err()`
(an untyped error) without issuing that attempt. -/
def requestLoop (env : Env) (maxRetries : Int) :
    Nat → Nat → Option SDKError → Nat → Nat × Except SDKError Unit
  | 0, _, lastErr, nreq => (nreq, .error (.retryErr (maxRetries + 1) lastErr))
  | fuel + 1, attempt, _, nreq =>
    if 0 < attempt ∧ env.cancelledDuringWait attempt = true then
      (nreq, .error (.goErr "context canceled"))
    else
      match env.outcome attempt with
      | .transportFailure t =>
        if isRetryableError t = true then
          requestLoop env maxRetries fuel (attempt + 1)
            (some (.networkErr "request failed" t)) (nreq + 1)
        else
          (nreq + 1, .error (.networkErr "request failed" t))
      | .response r =>
        if 200 ≤ r.statusCode ∧ r.statusCode < 300 then
          match r.handlerErr with
          | none => (nreq + 1, .ok ())
          | some m => (nreq + 1, .error (.goErr m))
        else
          if isRetryableStatus r.statusCode = true then
            requestLoop env maxRetries fuel (attempt + 1)
              (some (.apiErr (parseErrorResponse r.statusCode r.errBody))) (nreq + 1)
          else
            (nreq + 1, .error (.apiErr (parseErrorResponse r.statusCode r.errBody)))

/-- `requestRaw` from client.go: fail with a Validation error when no API
key is configured (before any network I/O), otherwise run the retry loop.
The first component counts the HTTP requests issued. -/
def requestRaw (c : Client) (env : Env) : Nat × Except SDKError Unit :=
  if c.apiKey = "" then
    (0, .error (.validationErr "apiKey" "API key is required"))
  else
    requestLoop env c.maxRetries (c.maxRetries + 1).toNat 0 none 0

/-- `calculateBackoff` from client.go, modelled exactly over `ℚ`:
`retryWaitMin * 2^(attempt-1)`, plus jitter `backoff * 0.25 * r` where
`r` stands for `rand.Float64()`, clamped to `retryWaitMax`. -/
def calculateBackoff (retryWaitMin retryWaitMax : ℚ) (attempt : Nat) (r : ℚ) : ℚ :=
  let backoff := retryWaitMin * 2 ^ (attempt - 1)
  let jitter := backoff * (1 / 4) * r
  let b := backoff + jitter
  if b > retryWaitMax then retryWaitMax else b

/-- `AsAPIError` from errors.go: the type assertion `err.(*APIError)`. -/
def AsAPIError : SDKError → Option APIError
  | .apiErr e => some e
  | _ => none

/-- `IsAPIError` from errors.go. -/
def IsAPIError (e : SDKError) : Bool :=
  (AsAPIError e).isSome

/-- `IsValidationError` from errors.go. -/
def IsValidationError : SDKError → Bool
  | .validationErr .. => true
  | _ => false

/-- `IsNetworkError` from errors.go. -/
def IsNetworkError : SDKError → Bool
  | .networkErr .. => true
  | _ => false

/-- `IsTimeoutError` from errors.go. -/
def IsTimeoutError : SDKError → Bool
  | .timeoutErr .. => true
  | _ => false

/-- `IsRetryError` from errors.go. -/
def IsRetryError : SDKError → Bool
  | .retryErr .. => true
  | _ => false

/-- `IsBadRequest` from errors.go. -/
def IsBadRequest (e : SDKError) : Bool :=
  match AsAPIError e with
  | some a => a.StatusCode == 400
  | none => false

/-- `IsUnauthorized` from errors.go. -/
def IsUnauthorized (e : SDKError) : Bool :=
  match AsAPIError e with
  | some a => a.StatusCode == 401
  | none => false

/-- `IsForbidden` from errors.go. -/
def IsForbidden (e : SDKError) : Bool :=
  match AsAPIError e with
  | some a => a.StatusCode == 403
  | none => false

/-- `IsNotFound` from errors.go. -/
def IsNotFound (e : SDKError) : Bool :=
  match AsAPIError e with
  | some a => a.StatusCode == 404
  | none => false

/-- `IsRateLimited` from errors.go. -/
def IsRateLimited (e : SDKError) : Bool :=
  match AsAPIError e with
  | some a => a.StatusCode == 429
  | none => false

/-- `IsServerError` from errors.go. -/
def IsServerError (e : SDKError) : Bool :=
  match AsAPIError e with
  | some a => decide (500 ≤ a.StatusCode ∧ a.StatusCode < 600)
  | none => false

/-- Modelled from the spec: the five typed error kinds of the taxonomy
(Validation, API, Network, Timeout, Retry-Exhausted). An error satisfies
this exactly when it is not a plain untyped Go error value. -/
def isTypedErrorKind : SDKError → Bool
  | .goErr .. => false
  | _ => true

/-- `ViewportConfig` from models.go. -/
structure ViewportConfig where
  Width : Int
  Height : Int
  DeviceScaleFactor : Int
  deriving Repr, DecidableEq

/-- `ScreenshotRequest` from models.go. -/
structure ScreenshotRequest where
  URL : String
  Viewport : Option ViewportConfig
  Device : String
  Format : String
  FullPage : Bool
  Quality : Int
  Delay : Int
  Timeout : Int
  WaitFor : String
  WaitUntil : String
  DarkMode : Bool
  CustomCSS : String
  HideSelectors : List String
  Selector : String
  BlockAds : Bool
  BlockCookieBanners : Bool
  BlockLevel : String
  WebhookURL : String
  WebhookSecret : String
  ResponseType : String
  deriving Repr, DecidableEq

/-- `CaptureItem` from models.go (fields read by validation). -/
structure CaptureItem where
  URL : String
  Device : String
  deriving Repr, DecidableEq

/-- `VariantConfig` from models.go (fields read by validation: none). -/
structure VariantConfig where
  Device : String
  deriving Repr, DecidableEq

/-- `ComposeRequest` from models.go (pointer-typed `Defaults`/`Output`
configuration blocks are omitted: validation never reads them). -/
structure ComposeRequest where
  Captures : List CaptureItem
  URL : String
  Variants : List VariantConfig
  Async : Bool
  WebhookURL : String
  WebhookSecret : String
  CapturesMode : Bool
  VariantsMode : Bool
  deriving Repr, DecidableEq

/-- The check `strings.HasPrefix(url, "http://") || strings.HasPrefix(url, "https://")`,
as a decidable computation on character lists. -/
def hasURLScheme (u : String) : Bool :=
  decide ("http://".toList <+: u.toList) || decide ("https://".toList <+: u.toList)

/-- `validateViewport` from client.go. -/
def validateViewport (v : ViewportConfig) : Option SDKError :=
  if v.Width ≠ 0 ∧ (v.Width < 100 ∨ v.Width > 4096) then
    some (.validationErr "viewport.width" "width must be between 100 and 4096")
  else if v.Height ≠ 0 ∧ (v.Height < 100 ∨ v.Height > 4096) then
    some (.validationErr "viewport.height" "height must be between 100 and 4096")
  else if v.DeviceScaleFactor ≠ 0 ∧ (v.DeviceScaleFactor < 1 ∨ v.DeviceScaleFactor > 3) then
    some (.validationErr "viewport.deviceScaleFactor" "deviceScaleFactor must be between 1 and 3")
  else
    none

/-- `validateScreenshotRequest` from client.go; the argument is the Go
pointer, `none` being `nil`. -/
def validateScreenshotRequest : Option ScreenshotRequest → Option SDKError
  | none => some (.validationErr "request" "request cannot be nil")
  | some req =>
    if req.URL = "" then
      some (.validationErr "url" "URL is required")
    else if hasURLScheme req.URL = false then
      some (.validationErr "url" "URL must start with http:// or https://")
    else if req.Quality ≠ 0 ∧ (req.Quality < 1 ∨ req.Quality > 100) then
      some (.validationErr "quality" "quality must be between 1 and 100")
    else if req.Delay ≠ 0 ∧ (req.Delay < 0 ∨ req.Delay > 30000) then
      some (.validationErr "delay" "delay must be between 0 and 30000")
    else if req.Timeout ≠ 0 ∧ (req.Timeout < 1000 ∨ req.Timeout > 60000) then
      some (.validationErr "timeout" "timeout must be between 1000 and 60000")
    else
      match req.Viewport with
      | some v => validateViewport v
      | none => none

/-- The indexed per-capture URL checks of `validateComposeRequest`. -/
def validateCaptures : List CaptureItem → Nat → Option SDKError
  | [], _ => none
  | cap :: rest, i =>
    if cap.URL = "" then
      some (.validationErr ("captures[" ++ toString i ++ "].url") "URL is required")
    else if hasURLScheme cap.URL = false then
      some (.validationErr ("captures[" ++ toString i ++ "].url")
        "URL must start with http:// or https://")
    else
      validateCaptures rest (i + 1)

/-- `validateComposeRequest` from client.go. -/
def validateComposeRequest : Option ComposeRequest → Option SDKError
  | none => some (.validationErr "request" "request cannot be nil")
  | some req =>
    if req.Captures.length = 0 ∧ req.URL = "" then
      some (.validationErr "captures" "either captures or url is required")
    else if req.Captures.length > 20 then
      some (.validationErr "captures" "maximum 20 captures allowed")
    else if req.Variants.length > 20 then
      some (.validationErr "variants" "maximum 20 variants allowed")
    else
      validateCaptures req.Captures 0

/-- `Screenshot` from client.go: validate, then run the executor
(`requestBinary` is `requestRaw` with the read-all handler; the bytes
returned on success are irrelevant to the properties proved here). -/
def Screenshot (c : Client) (env : Env) (req : Option ScreenshotRequest) :
    Nat × Except SDKError Unit :=
  match validateScreenshotRequest req with
  | some e => (0, .error e)
  | none => requestRaw c env

/-- `ComposeAsync` from client.go: validate, set `req.Async = true`
through the caller's pointer, then run the executor. The first component
is the value the caller's record holds after the call (Go mutates it in
place; `none` is a `nil` argument, left untouched). -/
def ComposeAsync (c : Client) (env : Env) (req : Option ComposeRequest) :
    Option ComposeRequest × (Nat × Except SDKError Unit) :=
  match req with
  | none => (none, (0, .error (.validationErr "request" "request cannot be nil")))
  | some r =>
    match validateComposeRequest (some r) with
    | some e => (some r, (0, .error e))
    | none => (some { r with Async := true }, requestRaw c env)

end Allscreenshots

namespace Allscreenshots

/-! ### Helper lemmas about the executor -/

theorem parseErrorResponse_statusCode (s : Int) (b : Option ErrEnvelope) :
    (parseErrorResponse s b).StatusCode = s := by
  cases b <;> rfl

theorem isRetryableStatus_cases {st : Int} (h : isRetryableStatus st = true) :
    st = 429 ∨ st = 502 ∨ st = 503 ∨ st = 504 := by
  simp only [isRetryableStatus, Bool.or_eq_true, beq_iff_eq] at h
  tauto

theorem retryable_not_2xx {st : Int} (h : isRetryableStatus st = true) :
    ¬(200 ≤ st ∧ st < 300) := by
  rcases isRetryableStatus_cases h with h1 | h1 | h1 | h1 <;> omega

/-- Unfolding the loop at zero fuel. -/
theorem requestLoop_zero (env : Env) (M : Int) (attempt : Nat)
    (le : Option SDKError) (nreq : Nat) :
    requestLoop env M 0 attempt le nreq =
      (nreq, .error (.retryErr (M + 1) le)) := rfl

/-- Unfolding one iteration of the loop. -/
theorem requestLoop_succ (env : Env) (M : Int) (fuel attempt : Nat)
    (le : Option SDKError) (nreq : Nat) :
    requestLoop env M (fuel + 1) attempt le nreq =
      if 0 < attempt ∧ env.cancelledDuringWait attempt = true then
        (nreq, .error (.goErr "context canceled"))
      else
        match env.outcome attempt with
        | .transportFailure t =>
          if isRetryableError t = true then
            requestLoop env M fuel (attempt + 1)
              (some (.networkErr "request failed" t)) (nreq + 1)
          else
            (nreq + 1, .error (.networkErr "request failed" t))
        | .response r =>
          if 200 ≤ r.statusCode ∧ r.statusCode < 300 then
            match r.handlerErr with
            | none => (nreq + 1, .ok ())
            | some m => (nreq + 1, .error (.goErr m))
          else
            if isRetryableStatus r.statusCode = true then
              requestLoop env M fuel (attempt + 1)
                (some (.apiErr (parseErrorResponse r.statusCode r.errBody))) (nreq + 1)
            else
              (nreq + 1, .error (.apiErr (parseErrorResponse r.statusCode r.errBody))) := rfl

/-- One iteration of the loop with no fuel left afterwards issues exactly
one HTTP request, whatever the outcome. -/
theorem requestLoop_one (env : Env) (M : Int) (le : Option SDKError) (nreq : Nat) :
    (requestLoop env M 1 0 le nreq).1 = nreq + 1 := by
  rw [requestLoop_succ]
  rw [if_neg (by simp)]
  cases ho : env.outcome 0 with
  | transportFailure t =>
    dsimp only
    by_cases hr : isRetryableError t = true
    · rw [if_pos hr, requestLoop_zero]
    · rw [if_neg hr]
  | response r =>
    dsimp only
    by_cases h2 : 200 ≤ r.statusCode ∧ r.statusCode < 300
    · rw [if_pos h2]
      cases r.handlerErr <;> rfl
    · rw [if_neg h2]
      by_cases hrs : isRetryableStatus r.statusCode = true
      · rw [if_pos hrs, requestLoop_zero]
      · rw [if_neg hrs]

/-- When every attempt observes a retryable HTTP status and no
cancellation fires, the loop consumes all its fuel and reports
exhaustion wrapping the API error of the final attempt. -/
theorem requestLoop_all_retryable (env : Env) (M : Int)
    (s : Nat → Int) (b : Nat → Option ErrEnvelope) (hh : Nat → Option String)
    (hOut : ∀ n, env.outcome n = .response ⟨s n, b n, hh n⟩)
    (hRet : ∀ n, isRetryableStatus (s n) = true)
    (hCan : ∀ n, env.cancelledDuringWait n = false) :
    ∀ (fuel a : Nat) (le : Option SDKError) (nreq : Nat),
      requestLoop env M (fuel + 1) a le nreq =
        (nreq + (fuel + 1),
          .error (.retryErr (M + 1)
            (some (.apiErr (parseErrorResponse (s (a + fuel)) (b (a + fuel))))))) := by
  intro fuel
  induction fuel with
  | zero =>
    intro a le nreq
    rw [requestLoop_succ]
    rw [if_neg (by simp [hCan]), hOut a]
    dsimp only
    rw [if_neg (retryable_not_2xx (hRet a)), if_pos (hRet a), requestLoop_zero]
    simp
  | succ f ih =>
    intro a le nreq
    rw [requestLoop_succ]
    rw [if_neg (by simp [hCan]), hOut a]
    dsimp only
    rw [if_neg (retryable_not_2xx (hRet a)), if_pos (hRet a)]
    rw [ih (a + 1) _ (nreq + 1)]
    have e1 : nreq + 1 + (f + 1) = nreq + (f + 1 + 1) := by omega
    have e2 : a + 1 + f = a + (f + 1) := by omega
    rw [e1, e2]

/-! ### C3: maxRetries = 0 means exactly one attempt -/

/-- C3: for every client configured with maxRetries = 0 and a non-empty
credential, a call to the executor performs exactly one HTTP attempt,
regardless of the response status it receives. -/
theorem claim_C3_single_attempt (c : Client) (env : Env)
    (hk : c.apiKey ≠ "") (hm : c.maxRetries = 0) :
    (requestRaw c env).1 = 1 := by
  unfold requestRaw
  rw [if_neg hk, hm]
  have h1 : ((0 : Int) + 1).toNat = 1 := rfl
  rw [h1]
  exact requestLoop_one env 0 none 0

/-! ### C5: empty credential fails before any network request -/

/-- C5: for every client whose configured credential is the empty string,
the executor — and hence any operation reaching it, e.g. `Screenshot` on
a valid request — returns a Validation error citing the API key, with
zero HTTP requests made. -/
theorem claim_C5_missing_credential (c : Client) (env : Env)
    (req : ScreenshotRequest) (hk : c.apiKey = "") :
    requestRaw c env = (0, .error (.validationErr "apiKey" "API key is required"))
    ∧ (validateScreenshotRequest (some req) = none →
        Screenshot c env (some req) =
          (0, .error (.validationErr "apiKey" "API key is required"))) := by
  constructor
  · unfold requestRaw
    rw [if_pos hk]
  · intro hv
    unfold Screenshot
    rw [hv]
    unfold requestRaw
    rw [if_pos hk]

/-! ### C10: negative maxRetries yields zero attempts and Retry-Exhausted -/

/-- C10: for every client configured with a negative maxRetries value and
a non-empty credential, the executor performs zero HTTP attempts and
returns a Retry-Exhausted error whose attempt count is maxRetries + 1 and
whose wrapped last error is nil. -/
theorem claim_C10_negative_retries (c : Client) (env : Env)
    (hk : c.apiKey ≠ "") (hm : c.maxRetries < 0) :
    requestRaw c env = (0, .error (.retryErr (c.maxRetries + 1) none)) := by
  unfold requestRaw
  rw [if_neg hk]
  have h0 : (c.maxRetries + 1).toNat = 0 := by omega
  rw [h0]
  rfl

/-! ### C1: all-retryable responses exhaust the retry budget -/

/-- C1: for every request whose every attempt receives a response with a
status in {429, 502, 503, 504}, the executor makes maxRetries + 1
attempts in total and then returns a Retry-Exhausted error wrapping the
API error of the last attempt. -/
theorem claim_C1_retry_exhaustion (c : Client) (env : Env)
    (s : Nat → Int) (b : Nat → Option ErrEnvelope) (hh : Nat → Option String)
    (hk : c.apiKey ≠ "") (hM : 0 ≤ c.maxRetries)
    (hOut : ∀ n, env.outcome n = .response ⟨s n, b n, hh n⟩)
    (hRet : ∀ n, isRetryableStatus (s n) = true)
    (hCan : ∀ n, env.cancelledDuringWait n = false) :
    requestRaw c env =
      ((c.maxRetries + 1).toNat,
        .error (.retryErr (c.maxRetries + 1)
          (some (.apiErr (parseErrorResponse (s c.maxRetries.toNat) (b c.maxRetries.toNat))))))
    ∧ IsRetryError (.retryErr (c.maxRetries + 1)
        (some (.apiErr (parseErrorResponse (s c.maxRetries.toNat)
          (b c.maxRetries.toNat))))) = true := by
  constructor
  · unfold requestRaw
    rw [if_neg hk]
    have hfuel : (c.maxRetries + 1).toNat = c.maxRetries.toNat + 1 := by omega
    rw [hfuel]
    rw [requestLoop_all_retryable env c.maxRetries s b hh hOut hRet hCan c.maxRetries.toNat 0 none 0]
    simp
  · rfl

/-! ### C2: which failures surface as typed kinds -/

/-- Every error the loop itself produces is one of the five typed kinds,
provided no cancellation fires during a backoff wait and every 2xx
response handler succeeds. -/
theorem requestLoop_typed (env : Env) (M : Int)
    (hCan : ∀ n, env.cancelledDuringWait n = false)
    (hH : ∀ n r, env.outcome n = .response r → r.handlerErr = none) :
    ∀ (fuel a : Nat) (le : Option SDKError) (nreq : Nat) (e : SDKError),
      (requestLoop env M fuel a le nreq).2 = .error e → isTypedErrorKind e = true := by
  intro fuel
  induction fuel with
  | zero =>
    intro a le nreq e h
    rw [requestLoop_zero] at h
    simp only at h
    injection h with h2
    rw [← h2]
    rfl
  | succ f ih =>
    intro a le nreq e h
    rw [requestLoop_succ] at h
    rw [if_neg (by simp [hCan])] at h
    cases ho : env.outcome a with
    | transportFailure t =>
      rw [ho] at h
      dsimp only at h
      by_cases hr : isRetryableError t = true
      · rw [if_pos hr] at h
        exact ih (a + 1) _ (nreq + 1) e h
      · rw [if_neg hr] at h
        simp only at h
        injection h with h2
        rw [← h2]
        rfl
    | response r =>
      rw [ho] at h
      dsimp only at h
      by_cases h2 : 200 ≤ r.statusCode ∧ r.statusCode < 300
      · rw [if_pos h2, hH a r ho] at h
        simp only at h
        exact absurd h (by simp)
      · rw [if_neg h2] at h
        by_cases hrs : isRetryableStatus r.statusCode = true
        · rw [if_pos hrs] at h
          exact ih (a + 1) _ (nreq + 1) e h
        · rw [if_neg hrs] at h
          simp only at h
          injection h with h3
          rw [← h3]
          rfl

/-- C2 (amended): when every attempt yields a transport failure or an
HTTP response, no cancellation fires during a backoff wait, and every
2xx response handler succeeds, any error the executor returns is one of
the five typed kinds. (The unamended claim is refuted by
`claim_C2_counterexample`: a cancellation during the backoff wait is
returned as an untyped error.) -/
theorem claim_C2_typed_failures (c : Client) (env : Env)
    (hCan : ∀ n, env.cancelledDuringWait n = false)
    (hH : ∀ n r, env.outcome n = .response r → r.handlerErr = none) :
    ∀ e, (requestRaw c env).2 = .error e → isTypedErrorKind e = true := by
  intro e h
  unfold requestRaw at h
  by_cases hk : c.apiKey = ""
  · rw [if_pos hk] at h
    simp only at h
    injection h with h2
    rw [← h2]
    rfl
  · rw [if_neg hk] at h
    exact requestLoop_typed env c.maxRetries hCan hH _ _ _ _ e h

/-! ### C4: non-retryable 4xx returns immediately, predicates classify -/

/-- C4: a first attempt answered with 400, 401, 403 or 404 returns the
API error immediately after exactly one attempt, the matching predicate
holds on the returned error, and each of the four predicates is false on
any error that is not an API error. -/
theorem claim_C4_no_retry_4xx (c : Client) (env : Env)
    (s : Int) (b : Option ErrEnvelope) (hh : Option String)
    (hk : c.apiKey ≠ "") (hM : 0 ≤ c.maxRetries)
    (hOut : env.outcome 0 = .response ⟨s, b, hh⟩)
    (hs : s = 400 ∨ s = 401 ∨ s = 403 ∨ s = 404) :
    requestRaw c env = (1, .error (.apiErr (parseErrorResponse s b)))
    ∧ (s = 400 → IsBadRequest (.apiErr (parseErrorResponse s b)) = true)
    ∧ (s = 401 → IsUnauthorized (.apiErr (parseErrorResponse s b)) = true)
    ∧ (s = 403 → IsForbidden (.apiErr (parseErrorResponse s b)) = true)
    ∧ (s = 404 → IsNotFound (.apiErr (parseErrorResponse s b)) = true)
    ∧ (∀ e, AsAPIError e = none →
        IsBadRequest e = false ∧ IsUnauthorized e = false ∧
        IsForbidden e = false ∧ IsNotFound e = false) := by
  have hnot2xx : ¬(200 ≤ s ∧ s < 300) := by omega
  have hnotRetry : ¬(isRetryableStatus s = true) := by
    simp only [isRetryableStatus, Bool.or_eq_true, beq_iff_eq]
    omega
  refine ⟨?_, ?_, ?_, ?_, ?_, ?_⟩
  · unfold requestRaw
    rw [if_neg hk]
    have hfuel : (c.maxRetries + 1).toNat = c.maxRetries.toNat + 1 := by omega
    rw [hfuel, requestLoop_succ]
    rw [if_neg (by simp), hOut]
    dsimp only
    rw [if_neg hnot2xx, if_neg hnotRetry]
  · intro h4
    simp [IsBadRequest, AsAPIError, parseErrorResponse_statusCode, h4]
  · intro h4
    simp [IsUnauthorized, AsAPIError, parseErrorResponse_statusCode, h4]
  · intro h4
    simp [IsForbidden, AsAPIError, parseErrorResponse_statusCode, h4]
  · intro h4
    simp [IsNotFound, AsAPIError, parseErrorResponse_statusCode, h4]
  · intro e he
    cases e <;>
      simp_all [AsAPIError, IsBadRequest, IsUnauthorized, IsForbidden, IsNotFound]

/-! ### C6: backoff bounds -/

/-- C6 (amended): for any jitter factor r in [0, 1] (so jitter in
[0, 25% of the exponential base]) the computed backoff never exceeds
retryWaitMax; and for attempt 1 with retryWaitMin > 0 the computed
backoff is strictly less than 2 * retryWaitMin. (The unamended claim,
which asserts the strict bound for every retryWaitMin ≤ retryWaitMax, is
refuted at retryWaitMin = 0 by `claim_C6_counterexample`.) -/
theorem claim_C6_backoff_bounds :
    (∀ (wmin wmax r : ℚ) (attempt : Nat),
      wmin ≤ wmax → 1 ≤ attempt → 0 ≤ r → r ≤ 1 →
      calculateBackoff wmin wmax attempt r ≤ wmax)
    ∧ (∀ (wmin wmax r : ℚ),
      0 < wmin → wmin ≤ wmax → 0 ≤ r → r ≤ 1 →
      calculateBackoff wmin wmax 1 r < 2 * wmin) := by
  constructor
  · intro wmin wmax r attempt hmm h1 hr0 hr1
    unfold calculateBackoff
    dsimp only
    split_ifs with h
    · exact le_refl wmax
    · exact le_of_not_lt h
  · intro wmin wmax r h0 hmm hr0 hr1
    unfold calculateBackoff
    dsimp only
    norm_num
    split_ifs with h
    · nlinarith
    · nlinarith

/-- C6 counterexample: with retryWaitMin = retryWaitMax = 0 (which
satisfies retryWaitMin ≤ retryWaitMax), attempt 1 and zero jitter, the
computed backoff is 0, which is not strictly less than
2 * retryWaitMin = 0. -/
theorem claim_C6_counterexample :
    (0 : ℚ) ≤ 0 ∧ ¬ (calculateBackoff 0 0 1 0 < 2 * 0) := by
  norm_num [calculateBackoff]

/-! ### C7: error envelope parsing -/

/-- C7: the API error message is the envelope message field when
non-empty, else the error field when non-empty; an unparseable body
yields the bare status-text error, and code/details are passed through
only from a parsed body. -/
theorem claim_C7_error_envelope (s : Int) (e : ErrEnvelope) :
    (e.message ≠ "" → (parseErrorResponse s (some e)).Message = e.message)
    ∧ (e.message = "" → e.error ≠ "" → (parseErrorResponse s (some e)).Message = e.error)
    ∧ parseErrorResponse s none =
        { StatusCode := s, Code := "", Message := statusText s, Details := none }
    ∧ (parseErrorResponse s (some e)).Code = e.code
    ∧ (parseErrorResponse s (some e)).Details = e.details := by
  refine ⟨?_, ?_, rfl, rfl, rfl⟩
  · intro h
    simp [parseErrorResponse, h]
  · intro h1 h2
    simp [parseErrorResponse, h1, h2]

/-! ### C8: screenshot request validation precedes the network -/

/-- C8: a screenshot request with quality = 101 fails with a Validation
error and zero HTTP requests; a request whose URL does not start with
http:// or https:// fails with a Validation error on field "url" and
zero HTTP requests. -/
theorem claim_C8_screenshot_validation (c : Client) (env : Env)
    (req : ScreenshotRequest) :
    (req.Quality = 101 →
      ∃ f m, Screenshot c env (some req) = (0, .error (.validationErr f m)))
    ∧ (hasURLScheme req.URL = false →
      ∃ m, Screenshot c env (some req) = (0, .error (.validationErr "url" m))) := by
  constructor
  · intro hq
    by_cases h1 : req.URL = ""
    · refine ⟨"url", "URL is required", ?_⟩
      have hv : validateScreenshotRequest (some req) =
          some (.validationErr "url" "URL is required") := by
        unfold validateScreenshotRequest
        dsimp only
        rw [if_pos h1]
      simp [Screenshot, hv]
    · by_cases h2 : hasURLScheme req.URL = false
      · refine ⟨"url", "URL must start with http:// or https://", ?_⟩
        have hv : validateScreenshotRequest (some req) =
            some (.validationErr "url" "URL must start with http:// or https://") := by
          unfold validateScreenshotRequest
          dsimp only
          rw [if_neg h1, if_pos h2]
        simp [Screenshot, hv]
      · refine ⟨"quality", "quality must be between 1 and 100", ?_⟩
        have hv : validateScreenshotRequest (some req) =
            some (.validationErr "quality" "quality must be between 1 and 100") := by
          unfold validateScreenshotRequest
          dsimp only
          rw [if_neg h1, if_neg h2, if_pos (by rw [hq]; omega)]
        simp [Screenshot, hv]
  · intro hscheme
    by_cases h1 : req.URL = ""
    · refine ⟨"URL is required", ?_⟩
      have hv : validateScreenshotRequest (some req) =
          some (.validationErr "url" "URL is required") := by
        unfold validateScreenshotRequest
        dsimp only
        rw [if_pos h1]
      simp [Screenshot, hv]
    · refine ⟨"URL must start with http:// or https://", ?_⟩
      have hv : validateScreenshotRequest (some req) =
          some (.validationErr "url" "URL must start with http:// or https://") := by
        unfold validateScreenshotRequest
        dsimp only
        rw [if_neg h1, if_pos hscheme]
      simp [Screenshot, hv]

/-! ### C9: ComposeAsync sets Async on the caller record -/

/-- C9 (amended): for every compose request that passes validation,
ComposeAsync leaves the caller record with Async = true before sending;
the record therefore differs from its pre-call value exactly when its
Async field was false. (The unamended claim, that the argument is never
left unchanged, is refuted by `claim_C9_counterexample` with a request
whose Async field is already true.) -/
theorem claim_C9_compose_async_mutation (c : Client) (env : Env)
    (r : ComposeRequest) (hv : validateComposeRequest (some r) = none) :
    (ComposeAsync c env (some r)).1 = some { r with Async := true }
    ∧ ({ r with Async := true } : ComposeRequest).Async = true
    ∧ (r.Async = false → (ComposeAsync c env (some r)).1 ≠ some r) := by
  have h1 : (ComposeAsync c env (some r)).1 = some { r with Async := true } := by
    simp [ComposeAsync, hv]
  refine ⟨h1, rfl, ?_⟩
  intro hA hEq
  rw [h1] at hEq
  injection hEq with h2
  have h3 := congrArg ComposeRequest.Async h2
  simp [hA] at h3

/-! ### Concrete fixtures for witnesses and counterexamples -/

/-- A configured client: non-empty key, maxRetries = 2. -/
def cFixture : Client :=
  ⟨"https://api.allscreenshots.com", "test-key", 2, 1000000000, 30000000000,
    "allscreenshots-sdk-go/1.0.0"⟩

/-- The fixture client with retries disabled. -/
def cFixtureZero : Client := { cFixture with maxRetries := 0 }

/-- The fixture client with a negative retry count. -/
def cFixtureNeg : Client := { cFixture with maxRetries := -1 }

/-- The fixture client with no credential. -/
def cFixtureNoKey : Client := { cFixture with apiKey := "" }

/-- A server that always answers 503 with an unparseable body. -/
def env503 : Env := ⟨fun _ => .response ⟨503, none, none⟩, fun _ => false⟩

/-- A server that always answers 404 with an unparseable body. -/
def env404 : Env := ⟨fun _ => .response ⟨404, none, none⟩, fun _ => false⟩

/-- A server answering 503, with the context cancelled during the backoff
wait that precedes attempt 1. -/
def envCancelWait1 : Env := ⟨fun _ => .response ⟨503, none, none⟩, fun n => n == 1⟩

/-- A valid screenshot request. -/
def reqFixture : ScreenshotRequest :=
  ⟨"https://example.com", none, "", "", false, 0, 0, 0, "", "", false, "",
    [], "", false, false, "", "", "", ""⟩

/-- The valid request with quality 101. -/
def reqQuality101 : ScreenshotRequest := { reqFixture with Quality := 101 }

/-- The valid request with an ftp URL. -/
def reqFtp : ScreenshotRequest := { reqFixture with URL := "ftp://x" }

/-- A valid compose request with Async initially false. -/
def composeFixture : ComposeRequest :=
  ⟨[⟨"https://example.com", "Desktop HD"⟩], "", [], false, "", "", false, false⟩

/-- The valid compose request with Async already true. -/
def composeFixtureAsync : ComposeRequest := { composeFixture with Async := true }

/-- An error envelope with both message and error fields populated. -/
def envelopeFixture : ErrEnvelope :=
  ⟨"rate limited", "RATE_LIMIT_EXCEEDED", "Too many requests", some [("limit", "100")]⟩

/-- An error envelope with an empty message field. -/
def envelopeNoMsg : ErrEnvelope := ⟨"rate limited", "RATE_LIMIT_EXCEEDED", "", none⟩

/-! ### Witnesses and counterexamples -/

/-- C1 witness: maxRetries = 2 against a server that always answers 503
makes exactly 3 attempts and ends in Retry-Exhausted wrapping the 503
API error. -/
theorem claim_C1_witness :
    requestRaw cFixture env503 =
      (3, .error (.retryErr 3 (some (.apiErr (parseErrorResponse 503 none)))))
    ∧ IsRetryError (.retryErr 3 (some (.apiErr (parseErrorResponse 503 none)))) = true := by
  have h := claim_C1_retry_exhaustion cFixture env503 (fun _ => 503) (fun _ => none)
    (fun _ => none) (by decide) (by decide) (fun n => rfl) (fun n => rfl) (fun n => rfl)
  exact h

/-- C2 witness: a 404 answer surfaces as a typed (API) error. -/
theorem claim_C2_witness :
    isTypedErrorKind (.apiErr (parseErrorResponse 404 none)) = true :=
  claim_C2_typed_failures cFixture env404 (fun _ => rfl)
    (fun _ r hr => by injection hr with h2; rw [← h2])
    (.apiErr (parseErrorResponse 404 none)) rfl

/-- C2 counterexample: a cancellation during the backoff wait is returned
as `ctx.Err()`, an untyped error — not one of the five typed kinds. -/
theorem claim_C2_counterexample :
    (requestRaw cFixture envCancelWait1).2 = .error (.goErr "context canceled")
    ∧ isTypedErrorKind (.goErr "context canceled") = false :=
  ⟨rfl, rfl⟩

/-- C3 witness: maxRetries = 0 issues exactly one HTTP attempt. -/
theorem claim_C3_witness : (requestRaw cFixtureZero env404).1 = 1 :=
  claim_C3_single_attempt cFixtureZero env404 (by decide) rfl

/-- C4 witness: a first-attempt 404 returns after one attempt and
satisfies IsNotFound. -/
theorem claim_C4_witness :
    requestRaw cFixture env404 = (1, .error (.apiErr (parseErrorResponse 404 none)))
    ∧ IsNotFound (.apiErr (parseErrorResponse 404 none)) = true := by
  have h := claim_C4_no_retry_4xx cFixture env404 404 none none (by decide) (by decide)
    rfl (Or.inr (Or.inr (Or.inr rfl)))
  exact ⟨h.1, h.2.2.2.2.1 rfl⟩

/-- C5 witness: an empty credential yields the apiKey Validation error
with zero requests, both at the executor and through Screenshot. -/
theorem claim_C5_witness :
    requestRaw cFixtureNoKey env503 =
      (0, .error (.validationErr "apiKey" "API key is required"))
    ∧ Screenshot cFixtureNoKey env503 (some reqFixture) =
      (0, .error (.validationErr "apiKey" "API key is required")) := by
  have h := claim_C5_missing_credential cFixtureNoKey env503 reqFixture rfl
  exact ⟨h.1, h.2 rfl⟩

/-- C6 witness: both backoff bounds at retryWaitMin = 1, retryWaitMax = 30,
jitter factor 1/2. -/
theorem claim_C6_witness :
    calculateBackoff 1 30 2 (1 / 2) ≤ 30 ∧ calculateBackoff 1 30 1 (1 / 2) < 2 * 1 :=
  ⟨claim_C6_backoff_bounds.1 1 30 (1 / 2) 2 (by norm_num) (by norm_num)
      (by norm_num) (by norm_num),
    claim_C6_backoff_bounds.2 1 30 (1 / 2) (by norm_num) (by norm_num)
      (by norm_num) (by norm_num)⟩

/-- C7 witness: message wins when non-empty; error is used when message
is empty. -/
theorem claim_C7_witness :
    (parseErrorResponse 429 (some envelopeFixture)).Message = envelopeFixture.message
    ∧ (parseErrorResponse 429 (some envelopeNoMsg)).Message = envelopeNoMsg.error :=
  ⟨(claim_C7_error_envelope 429 envelopeFixture).1 (by decide),
    (claim_C7_error_envelope 429 envelopeNoMsg).2.1 rfl (by decide)⟩

/-- C8 witness: quality = 101 and an ftp URL both fail validation with
zero requests, the latter on field "url". -/
theorem claim_C8_witness :
    (∃ f m, Screenshot cFixture env503 (some reqQuality101) =
      (0, .error (.validationErr f m)))
    ∧ (∃ m, Screenshot cFixture env503 (some reqFtp) =
      (0, .error (.validationErr "url" m))) :=
  ⟨(claim_C8_screenshot_validation cFixture env503 reqQuality101).1 rfl,
    (claim_C8_screenshot_validation cFixture env503 reqFtp).2 (by decide)⟩

/-- C9 witness: on a valid request with Async = false, the caller record
ends with Async = true and so differs from its pre-call value. -/
theorem claim_C9_witness :
    (ComposeAsync cFixture env503 (some composeFixture)).1 =
      some { composeFixture with Async := true }
    ∧ (ComposeAsync cFixture env503 (some composeFixture)).1 ≠ some composeFixture := by
  have h := claim_C9_compose_async_mutation cFixture env503 composeFixture rfl
  exact ⟨h.1, h.2.2 rfl⟩

/-- C9 counterexample: a valid compose request whose Async field is
already true passes validation and IS left unchanged by ComposeAsync,
refuting "the argument struct is not left unchanged by the call". -/
theorem claim_C9_counterexample :
    validateComposeRequest (some composeFixtureAsync) = none
    ∧ (ComposeAsync cFixture env503 (some composeFixtureAsync)).1 =
      some composeFixtureAsync :=
  ⟨rfl, rfl⟩

/-- C10 witness: maxRetries = -1 issues zero attempts and returns
Retry-Exhausted with attempt count 0 and no wrapped error. -/
theorem claim_C10_witness :
    requestRaw cFixtureNeg env503 = (0, .error (.retryErr 0 none)) := by
  have h := claim_C10_negative_retries cFixtureNeg env503 (by decide) (by decide)
  exact h

end Allscreenshots
